import Mathlib

/-!
Verification of `app/routers/credentials.py` (traction-tenant-traceability-controller).

The router's five endpoints are embedded shallowly:

* Python dicts holding credentials become explicit structures with the fields
  the router touches;
* the Askar store becomes a total function from keys to fetch outcomes, where
  an outcome is `found`, `absent`, or `corrupt` (any other exception raised by
  `askar.fetch_data`);
* external collaborators (`agent.sign_json_ld`, `agent.verify_credential`,
  `status_list.change_credential_status`, …) become function parameters;
* f-string key construction becomes string concatenation, and Python's
  `str.lower()` becomes `pyLower` (the ASCII case fold, which agrees with
  Python on the ASCII labels and identifiers at issue).

Functions of this repository that are referenced but not part of the router
module (`status_list.create_entry`, `status_list.get_credential_status`,
IssueCredentialSchema, …) are modelled from the spec; their doc comments say so
explicitly.
-/

/-- ASCII lower-casing of one character, the character-level model of Python's
`str.lower()` on the ASCII alphabet. -/
def lowerChar (c : Char) : Char :=
  match c with
  | 'A' => 'a' | 'B' => 'b' | 'C' => 'c' | 'D' => 'd' | 'E' => 'e' | 'F' => 'f'
  | 'G' => 'g' | 'H' => 'h' | 'I' => 'i' | 'J' => 'j' | 'K' => 'k' | 'L' => 'l'
  | 'M' => 'm' | 'N' => 'n' | 'O' => 'o' | 'P' => 'p' | 'Q' => 'q' | 'R' => 'r'
  | 'S' => 's' | 'T' => 't' | 'U' => 'u' | 'V' => 'v' | 'W' => 'w' | 'X' => 'x'
  | 'Y' => 'y' | 'Z' => 'z'
  | c => c

theorem lowerChar_cases (c : Char) :
    lowerChar c = c ∨ lowerChar c ∈ ['a', 'b', 'c', 'd', 'e', 'f', 'g', 'h', 'i',
      'j', 'k', 'l', 'm', 'n', 'o', 'p', 'q', 'r', 's', 't', 'u', 'v', 'w', 'x',
      'y', 'z'] := by
  unfold lowerChar
  split <;> simp

theorem lowerChar_ne_colon (c : Char) (h : c ≠ ':') : lowerChar c ≠ ':' := by
  rcases lowerChar_cases c with hc | hc
  · rw [hc]; exact h
  · simp only [List.mem_cons, List.not_mem_nil, or_false] at hc
    rcases hc with hc|hc|hc|hc|hc|hc|hc|hc|hc|hc|hc|hc|hc|hc|hc|hc|hc|hc|hc|hc|hc|hc|hc|hc|hc|hc <;>
      rw [hc] <;> decide

theorem lowerChar_lowerChar (c : Char) : lowerChar (lowerChar c) = lowerChar c := by
  rcases lowerChar_cases c with hc | hc
  · rw [hc, hc]
  · simp only [List.mem_cons, List.not_mem_nil, or_false] at hc
    rcases hc with hc|hc|hc|hc|hc|hc|hc|hc|hc|hc|hc|hc|hc|hc|hc|hc|hc|hc|hc|hc|hc|hc|hc|hc|hc|hc <;>
      rw [hc] <;> decide

/-- Model of Python's `str.lower()` (ASCII fragment). -/
def pyLower (s : String) : String := ⟨s.data.map lowerChar⟩

theorem pyLower_append (a b : String) : pyLower (a ++ b) = pyLower a ++ pyLower b :=
  String.ext (by simp [pyLower, String.data_append])

theorem pyLower_pyLower (s : String) : pyLower (pyLower s) = pyLower s :=
  String.ext (by simp [pyLower, Function.comp, lowerChar_lowerChar])

/-- Characters of a string up to the first colon: the tenant segment of a
store key. -/
def headSegData (l : List Char) : List Char := l.takeWhile (fun c => c ≠ ':')

/-- A character list without colons (e.g. a well-formed tenant label). -/
def colonFreeData (l : List Char) : Prop := ∀ c ∈ l, c ≠ ':'

instance (l : List Char) : Decidable (colonFreeData l) := by
  unfold colonFreeData; infer_instance

theorem colonFreeData_map_lowerChar (l : List Char) (h : colonFreeData l) :
    colonFreeData (l.map lowerChar) := by
  intro c hc
  rcases List.mem_map.mp hc with ⟨c0, hc0, rfl⟩
  exact lowerChar_ne_colon c0 (h c0 hc0)

theorem headSegData_append (t r : List Char) (h : colonFreeData t) :
    headSegData (t ++ ':' :: r) = t := by
  induction t with
  | nil => simp [headSegData, List.takeWhile]
  | cons c cs ih =>
    have hc : c ≠ ':' := h c (by simp)
    have hcs : colonFreeData cs := fun x hx => h x (by simp [hx])
    simp only [headSegData, List.cons_append, List.takeWhile]
    simp [hc, headSegData] at ih ⊢
    exact ih hcs

theorem strLen_append (a b : String) : (a ++ b).length = a.length + b.length := by
  show (a.data ++ b.data).length = a.data.length + b.data.length
  exact List.length_append a.data b.data

/-! ## Store keys, exactly as the router's f-strings build them -/

/-- Key read by `get_credential` (line 30):
`f"\x7blabel\x7d:credentials:\x7bcredential_id\x7d"`, no lower-casing. -/
def credential_data_key (label credential_id : String) : String :=
  label ++ ":credentials:" ++ credential_id

/-- Key written by `issue_credential` (line 99):
the same concatenation, passed through `.lower()`. -/
def issue_data_key (label cred_id : String) : String :=
  pyLower (label ++ ":credentials:" ++ cred_id)

/-- Key read by `update_credential_status` (line 171): lower-cased like the
issue key. -/
def update_fetch_key (label credential_id : String) : String :=
  pyLower (label ++ ":credentials:" ++ credential_id)

/-- Key written by `update_credential_status` for the signed status list
(line 186): a single shared key per label, with no list type and no
generation. -/
def update_status_list_key (label : String) : String :=
  label ++ ":status_list"

/-- Key read by `get_status_list_credential` (line 200): label and list type,
no generation. -/
def status_list_retrieval_key (label list_type : String) : String :=
  label ++ ":status_lists:" ++ list_type

/-- Spec-side definition, for comparison with the keys the code builds: the
spec (§3, §6) prescribes status-list keys of the form
`\x7btenant\x7d:status_lists:\x7btype\x7d:\x7bgeneration\x7d`.  The generation
component is kept as an arbitrary string so that the comparison covers every
possible rendering of the generation integer. -/
def specStatusListKeyScheme (tenant ty gen : String) : String :=
  tenant ++ ":status_lists:" ++ ty ++ ":" ++ gen

theorem no_gen_in_update_key (label : String) :
    ¬ ∃ ty gen, update_status_list_key label = specStatusListKeyScheme label ty gen := by
  rintro ⟨ty, gen, h⟩
  have hl := congrArg String.length h
  simp only [update_status_list_key, specStatusListKeyScheme, strLen_append] at hl
  have h1 : (":status_list" : String).length = 12 := rfl
  have h2 : (":status_lists:" : String).length = 14 := rfl
  have h3 : (":" : String).length = 1 := rfl
  rw [h1, h2, h3] at hl
  omega

theorem no_gen_in_retrieval_key (label ty : String) :
    ¬ ∃ gen, status_list_retrieval_key label ty = specStatusListKeyScheme label ty gen := by
  rintro ⟨gen, h⟩
  have hl := congrArg String.length h
  simp only [status_list_retrieval_key, specStatusListKeyScheme, strLen_append] at hl
  have h3 : (":" : String).length = 1 := rfl
  rw [h3] at hl
  omega

/-! ## Data model: the dict shapes the router manipulates -/

/-- A credential's `credentialStatus` claim.  Field shapes follow the spec
(§6), which fixes the claim embedded in issued credentials as
`\x7bid, type, statusListCredential, statusListIndex, statusPurpose\x7d`. -/
structure StatusEntryDoc where
  entryType : String
  statusListCredential : String
  statusListIndex : Nat
  statusPurpose : String
deriving DecidableEq, Repr

/-- The `issuer` field of a credential: either a plain string or a dict with
an `id` key (lines 73-77 handle both). -/
inductive IssuerField where
  | str (id : String)
  | obj (id : String)
deriving DecidableEq, Repr

/-- The DID the router extracts from the issuer field (lines 73-77). -/
def IssuerField.did : IssuerField → String
  | .str s => s
  | .obj s => s

/-- The credential dict of an issue request, with the fields
`issue_credential` touches: `context` (renamed to `@context` at line 53),
optional `id` (filled at lines 56-57), and `issuer`. -/
structure InCredential where
  context : List String
  id : Option String
  issuer : IssuerField
deriving DecidableEq, Repr

/-- The credential dict after `issue_credential` has rewritten it: `@context`
possibly extended, `id` filled, `credentialStatus` possibly attached.  This is
the value stored at line 100. -/
structure OutCredential where
  atContext : List String
  id : String
  issuer : IssuerField
  credentialStatus : Option StatusEntryDoc
deriving DecidableEq, Repr

/-- The `credentialStatus` member of the issue request's options; the router
reads only its `type` (lines 61, 66). -/
structure CredStatusOption where
  csType : String
deriving DecidableEq, Repr

/-- Modelled from the spec: `IssueCredentialSchema` lives in
`app.models.web_requests`, which is not under src/.  Per the spec (§1, each
credential is *optionally* bound to a status list) the options may or may not
carry a `credentialStatus` member; `dict(exclude_none=True)` drops it when
absent. -/
structure IssueOptions where
  credentialStatus : Option CredStatusOption
  created : Option String
deriving DecidableEq, Repr

/-- Options dict handed to `agent.sign_json_ld` after the router's rewrites
(lines 84-90): `created` has been popped, so only these two fields remain
relevant. -/
structure SignOptions where
  verificationMethod : String
  proofPurpose : String
deriving DecidableEq, Repr

/-- A value held in the Askar store: a credential dict (written by
`issue_credential`) or an opaque signed document (the signed status-list
credential written by `update_credential_status`). -/
inductive Val where
  | cred (c : OutCredential)
  | doc (s : String)
deriving DecidableEq, Repr

/-- Outcome of `askar.fetch_data` on one key: the value, a not-found failure,
or any other raised exception (decode failure, storage error, ...). -/
inductive FetchOutcome where
  | found (v : Val)
  | absent
  | corrupt (msg : String)
deriving DecidableEq, Repr

/-- The external Askar store, as the router sees it. -/
def Store := String → FetchOutcome

/-- Effect of `askar.store_data` / `askar.update_data`: overwrite one key. -/
def Store.put (st : Store) (k : String) (v : Val) : Store :=
  fun k2 => if k2 = k then .found v else st k2

theorem Store.put_same (st : Store) (k : String) (v : Val) :
    st.put k v k = .found v := by
  simp [Store.put]

theorem Store.put_other (st : Store) (k : String) (v : Val) (k2 : String)
    (h : k2 ≠ k) : st.put k v k2 = st k2 := by
  simp [Store.put, h]

/-- Persistent state visible to the router: the store, plus the per-tenant,
per-list-type allocation counter that `status_list.create_entry` advances
(the counter itself lives behind the store in the real system; it is split
out here so that allocation effects can be stated directly). -/
structure EngineState where
  store : Store
  nextIndex : String → String → Nat

/-- Modelled from the spec: `status_list.create_entry(tenant, type)` is not
under src/.  Per §4.3/§4.6 it reserves `index = next_free_index` for the
tenant's list of the given type, increments the counter, and returns a
StatusEntry `\x7btype, statusListCredential, statusListIndex, statusPurpose\x7d`
referencing that list and index. -/
def create_entry (st : EngineState) (tenant ty : String) :
    StatusEntryDoc × EngineState :=
  let idx := st.nextIndex tenant ty
  let entry : StatusEntryDoc :=
    { entryType := if ty = "StatusList2021" then "StatusList2021Entry"
                   else "RevocationList2020Status"
      statusListCredential := tenant ++ ":status_lists:" ++ ty
      statusListIndex := idx
      statusPurpose := "revocation" }
  (entry,
   { st with
     nextIndex := fun t2 y2 =>
       if t2 = tenant ∧ y2 = ty then idx + 1 else st.nextIndex t2 y2 })

/-- External collaborators of the router, abstracted as total functions:
the DID web base from settings, `agent.get_verkey` + `agent.sign_json_ld`
on credentials and on status-list documents, and
`status_list.change_credential_status` (which may raise). -/
structure Collaborators where
  didWebBase : String
  signCred : OutCredential → SignOptions → String
  signDoc : String → String
  changeStatus : OutCredential → String → String → Except String String

/-! ## get_credential (lines 21-37) -/

/-- Result of the two GET endpoints: the fetched value, or the 404
ValidationException produced by the bare `except:`. -/
inductive GetOutcome where
  | ok (v : Val)
  | err404 (msg : String)
deriving DecidableEq, Repr

/-- Embedding of `get_credential` (lines 27-37): fetch under the raw
(non-lower-cased) key; the bare `except:` turns *every* failure into the 404
response. -/
def get_credential (st : EngineState) (label credential_id : String) :
    GetOutcome :=
  match st.store (credential_data_key label credential_id) with
  | .found v => .ok v
  | .absent => .err404 ("credential " ++ credential_id ++ " not found")
  | .corrupt _ => .err404 ("credential " ++ credential_id ++ " not found")

/-! ## get_status_list_credential (lines 192-207) -/

/-- Embedding of `get_status_list_credential` (lines 197-207): no JWT
dependency, label only normalized (the label parameter here is the
`format_label` output); the bare `except:` again folds every fetch failure
into the 404 payload (which the source *returns* rather than raises — both
are modelled as `err404`). -/
def get_status_list_credential (st : EngineState) (label list_type : String) :
    GetOutcome :=
  match st.store (status_list_retrieval_key label list_type) with
  | .found v => .ok v
  | .absent => .err404 "Status list not found"
  | .corrupt _ => .err404 "Status list not found"

/-! ## issue_credential (lines 40-102) -/

/-- Failures of `issue_credential`: the unconditional
`options.pop("credentialStatus")` at line 71 raising KeyError, or the 400
"Invalid issuer" ValidationException at lines 79-82. -/
inductive IssueErr where
  | keyError
  | invalidIssuer
deriving DecidableEq, Repr

/-- Context URL appended for StatusList2021 entries (line 62). -/
def statusList2021Ctx : String := "https://w3id.org/vc/status-list/2021/v1"

/-- Context URL appended for RevocationList2020 entries (line 67). -/
def revocationList2020Ctx : String := "https://w3id.org/vc-revocation-list-2020/v1"

/-- Embedding of `issue_credential` (lines 46-102).  Effects in source order:
rename `context`, default the id from a fresh uuid, dispatch on
`options["credentialStatus"]["type"]` calling `create_entry` once for a
recognized type, then `options.pop("credentialStatus")` — which raises
KeyError when the options carry no such member — then the issuer check
(400 on mismatch), then sign, then store the credential dict under the
lower-cased key (lines 99-100).  Returns the response payload together with
the state, since allocator effects persist even when a later step fails. -/
def issue_credential (C : Collaborators) (st : EngineState) (label : String)
    (credential : InCredential) (options : IssueOptions) (freshUuid : String) :
    Except IssueErr String × EngineState :=
  let credId := credential.id.getD ("urn:uuid:" ++ freshUuid)
  let step :=
    match options.credentialStatus with
    | some cs =>
      if cs.csType = "StatusList2021Entry" then
        let (entry, st1) := create_entry st label "StatusList2021"
        (credential.context ++ [statusList2021Ctx], some entry, st1)
      else if cs.csType = "RevocationList2020Status" then
        let (entry, st1) := create_entry st label "RevocationList2020"
        (credential.context ++ [revocationList2020Ctx], some entry, st1)
      else (credential.context, none, st)
    | none => (credential.context, none, st)
  let atContext := step.1
  let credStatus := step.2.1
  let st1 := step.2.2
  match options.credentialStatus with
  | none => (.error .keyError, st1)
  | some _ =>
    let did := C.didWebBase ++ ":organization:" ++ label
    if did = credential.issuer.did then
      let outCred : OutCredential :=
        { atContext := atContext, id := credId, issuer := credential.issuer,
          credentialStatus := credStatus }
      let signOpts : SignOptions :=
        { verificationMethod := did ++ "#verkey", proofPurpose := "assertionMethod" }
      let vc := C.signCred outCred signOpts
      let st2 := { st1 with store := st1.store.put (issue_data_key label credId) (.cred outCred) }
      (.ok vc, st2)
    else (.error .invalidIssuer, st1)

/-! ## update_credential_status (lines 157-189) -/

/-- Outcome of `update_credential_status`: the 200 "Status updated" response,
an unhandled exception from the un-guarded `askar.fetch_data` at line 172, an
unhandled type failure when the stored value is not a credential dict, or an
unhandled exception raised inside the per-status loop. -/
inductive UpdateOutcome where
  | ok
  | fetchFailed (msg : String)
  | typeFailed
  | changeFailed (msg : String)
deriving DecidableEq, Repr

/-- The per-status loop of `update_credential_status` (lines 180-187): for
each status in the batch, call `status_list.change_credential_status`, sign
the returned status-list credential, and immediately persist the signed
document under `\x7blabel\x7d:status_list` before the next status is even
computed.  An exception stops the loop, but the writes already made remain in
the store: the store reached so far is returned alongside the error. -/
def update_status_loop (C : Collaborators) (label : String)
    (vc : OutCredential) (statuses : List String) (store : Store) :
    Store × Option String :=
  match statuses with
  | [] => (store, none)
  | sb :: rest =>
    match C.changeStatus vc sb label with
    | .error e => (store, some e)
    | .ok slc =>
      let signed := C.signDoc slc
      let store1 := store.put (update_status_list_key label) (.doc signed)
      update_status_loop C label vc rest store1

/-- Embedding of `update_credential_status` (lines 163-189): fetch the
credential under the lower-cased key (no try/except here, so a fetch failure
propagates), then run the per-status loop.  The state is returned in every
case because each iteration's `askar.update_data` has already persisted. -/
def update_credential_status (C : Collaborators) (st : EngineState)
    (label credential_id : String) (statuses : List String) :
    UpdateOutcome × EngineState :=
  match st.store (update_fetch_key label credential_id) with
  | .absent => (.fetchFailed "not found", st)
  | .corrupt m => (.fetchFailed m, st)
  | .found (.doc _) => (.typeFailed, st)
  | .found (.cred vc) =>
    let r := update_status_loop C label vc statuses st.store
    match r.2 with
    | none => (.ok, { st with store := r.1 })
    | some e => (.changeFailed e, { st with store := r.1 })

/-! ## verify_credential (lines 105-154) -/

/-- The credential dict of a verify request, with the fields the status path
of `verify_credential` touches.  The embedding covers credentials without an
`expirationDate` member, so the expiry branch (lines 133-139, wall-clock
dependent) is out of the embedded fragment. -/
structure VerifyVC where
  context : List String
  credentialStatus : Option StatusEntryDoc
deriving DecidableEq, Repr

/-- The dict returned by `agent.verify_credential`: the router reads only its
`verified` member (line 144); `none` models the member being absent, in which
case that read raises and the bare `except:` at line 151 runs. -/
structure AgentVerifyDoc where
  verifiedField : Option Bool
deriving DecidableEq, Repr

/-- The `CredentialVerificationResponse` dict built by the handler
(`verification` in the source).  Modelled from the spec: the response model
class is in `app.models.web_requests`, not under src/; the handler's `+=` on
`checks`/`errors` and `len(...)` on `warnings` require list defaults, and
`verified` is written before any read on every path. -/
structure VerificationRecord where
  checks : List String
  warnings : List String
  errors : List String
  verified : Bool
deriving DecidableEq, Repr

/-- Modelled from the spec: `status_list.get_credential_status` is not under
src/.  Per §4.6 it loads the referenced status list, decodes the bits, and
returns `bits[status_list_index]` for the claim's purpose. -/
def spec_get_credential_status (bits : List Bool) (entry : StatusEntryDoc) : Bool :=
  bits.getD entry.statusListIndex false

/-- What `verify_credential` produces: `record` is the `verification` dict the
handler assembles; `response` is the content of the `JSONResponse` actually
returned — which at lines 150 and 154 is `verified`, the raw
`agent.verify_credential` result, in both the try and the except branch. -/
structure VerifyResult where
  record : VerificationRecord
  response : AgentVerifyDoc
deriving DecidableEq, Repr

/-- Embedding of `verify_credential` (lines 111-154) on the no-expiry
fragment.  `getStatus` abstracts `status_list.get_credential_status` applied
to the credential's status claim and its `type` (lines 125-127). -/
def verify_credential (getStatus : StatusEntryDoc → String → Bool)
    (agentVerify : AgentVerifyDoc) (vc : VerifyVC) : VerifyResult :=
  let record : VerificationRecord :=
    { checks := [], warnings := [], errors := [], verified := false }
  let record :=
    match vc.credentialStatus with
    | some entry =>
      let record1 := { record with checks := record.checks ++ ["status"] }
      if getStatus entry entry.entryType then
        { record1 with errors := record1.errors ++ ["revoked"] }
      else record1
    | none => record
  let record := { record with checks := record.checks ++ ["proof"] }
  let record :=
    match agentVerify.verifiedField with
    | some v =>
      let record2 :=
        if v then record
        else { record with errors := record.errors ++ ["invalid proof"] }
      { record2 with verified := record2.errors = [] ∧ record2.warnings = [] }
    | none =>
      { record with verified := false,
                    errors := record.errors ++ ["verifier error"] }
  { record := record, response := agentVerify }

/-! ## The router's endpoint declarations (decorators, lines 21-28, 40-45,
105-110, 157-162, 192-196) -/

/-- One `@router` declaration: its summary name, path, whether its decorator
carries `dependencies=[Depends(JWTBearer())]`, whether its body calls
`is_authorized(label, request)`, and whether its body only calls
`format_label(label)`. -/
structure EndpointDecl where
  name : String
  path : String
  hasJWTBearer : Bool
  checksAuthorized : Bool
  normalizesLabelOnly : Bool
deriving DecidableEq, Repr

/-- The five endpoints of `app/routers/credentials.py`, transcribed from the
decorators and the first lines of each handler body. -/
def routerEndpoints : List EndpointDecl :=
  [⟨"get_credential", "/organization/{label}/credentials/{credential_id}",
    true, true, false⟩,
   ⟨"issue_credential", "/organization/{label}/credentials/issue",
    true, true, false⟩,
   ⟨"verify_credential", "/organization/{label}/credentials/verify",
    true, true, false⟩,
   ⟨"update_credential_status", "/organization/{label}/credentials/status",
    true, true, false⟩,
   ⟨"get_status_list_credential", "/organization/{label}/credentials/status/{list_type}",
    false, false, true⟩]

/-! ## One request as an operation, for the cross-tenant independence claim -/

/-- A request to one of the store-touching endpoints, minus its tenant label
(the label is supplied separately so that the same operation can be posed for
different tenants). -/
inductive Op where
  | getCred (credential_id : String)
  | issue (credential : InCredential) (options : IssueOptions) (freshUuid : String)
  | update (credential_id : String) (statuses : List String)
  | getStatusList (list_type : String)

/-- The response produced by one operation. -/
inductive OpResult where
  | got (g : GetOutcome)
  | issued (r : Except IssueErr String)
  | updated (u : UpdateOutcome)
  | gotList (g : GetOutcome)

/-- Dispatch one request to its handler. -/
def applyOp (C : Collaborators) (label : String) (o : Op) (st : EngineState) :
    OpResult × EngineState :=
  match o with
  | .getCred cid => (.got (get_credential st label cid), st)
  | .issue cred opts uuid =>
    let r := issue_credential C st label cred opts uuid
    (.issued r.1, r.2)
  | .update cid statuses =>
    let r := update_credential_status C st label cid statuses
    (.updated r.1, r.2)
  | .getStatusList ty => (.gotList (get_status_list_credential st label ty), st)

/-- Store keys an operation reads, per the handler bodies. -/
def Op.storeReads (label : String) : Op → List String
  | .getCred cid => [credential_data_key label cid]
  | .issue _ _ _ => []
  | .update cid _ => [update_fetch_key label cid]
  | .getStatusList ty => [status_list_retrieval_key label ty]

/-- Store keys an operation may write, per the handler bodies. -/
def Op.storeWrites (label : String) : Op → List String
  | .getCred _ => []
  | .issue cred _ uuid => [issue_data_key label (cred.id.getD ("urn:uuid:" ++ uuid))]
  | .update _ _ => [update_status_list_key label]
  | .getStatusList _ => []

/-- Keys an operation touches at all. -/
def Op.storeKeys (label : String) (o : Op) : List String :=
  o.storeReads label ++ o.storeWrites label

/-! ## Frame lemmas: which state each handler can touch -/

theorem update_loop_frame (C : Collaborators) (label : String)
    (vc : OutCredential) (statuses : List String) (store : Store) (k : String)
    (hk : k ≠ update_status_list_key label) :
    (update_status_loop C label vc statuses store).1 k = store k := by
  induction statuses generalizing store with
  | nil => rfl
  | cons sb rest ih =>
    unfold update_status_loop
    cases C.changeStatus vc sb label with
    | error e => rfl
    | ok slc =>
      simp only []
      rw [ih]
      exact Store.put_other _ _ _ _ hk

theorem update_loop_err_congr (C : Collaborators) (label : String)
    (vc : OutCredential) (statuses : List String) (store1 store2 : Store) :
    (update_status_loop C label vc statuses store1).2 =
      (update_status_loop C label vc statuses store2).2 := by
  induction statuses generalizing store1 store2 with
  | nil => rfl
  | cons sb rest ih =>
    unfold update_status_loop
    cases C.changeStatus vc sb label with
    | error e => rfl
    | ok slc => exact ih _ _

theorem update_store_frame (C : Collaborators) (st : EngineState)
    (label credential_id : String) (statuses : List String) (k : String)
    (hk : k ≠ update_status_list_key label) :
    ((update_credential_status C st label credential_id statuses).2).store k =
      st.store k := by
  unfold update_credential_status
  cases h : st.store (update_fetch_key label credential_id) with
  | absent => rfl
  | corrupt m => rfl
  | found v =>
    cases v with
    | doc s => rfl
    | cred vc =>
      simp only []
      cases h2 : (update_status_loop C label vc statuses st.store).2 <;>
        simpa [h2] using update_loop_frame C label vc statuses st.store k hk

theorem update_nextIndex_frame (C : Collaborators) (st : EngineState)
    (label credential_id : String) (statuses : List String) (t ty : String) :
    ((update_credential_status C st label credential_id statuses).2).nextIndex t ty =
      st.nextIndex t ty := by
  unfold update_credential_status
  cases h : st.store (update_fetch_key label credential_id) with
  | absent => rfl
  | corrupt m => rfl
  | found v =>
    cases v with
    | doc s => rfl
    | cred vc =>
      simp only []
      cases h2 : (update_status_loop C label vc statuses st.store).2 <;> simp [h2]

theorem issue_store_frame (C : Collaborators) (st : EngineState) (label : String)
    (credential : InCredential) (options : IssueOptions) (freshUuid : String)
    (k : String)
    (hk : k ≠ issue_data_key label (credential.id.getD ("urn:uuid:" ++ freshUuid))) :
    ((issue_credential C st label credential options freshUuid).2).store k =
      st.store k := by
  unfold issue_credential
  cases hcs : options.credentialStatus with
  | none => simp
  | some cs =>
    by_cases h1 : cs.csType = "StatusList2021Entry" <;>
      by_cases h2 : cs.csType = "RevocationList2020Status" <;>
      by_cases h3 : C.didWebBase ++ ":organization:" ++ label = credential.issuer.did <;>
      simp [h1, h2, h3, create_entry, Store.put_other _ _ _ _ hk]

theorem issue_nextIndex_frame (C : Collaborators) (st : EngineState) (label : String)
    (credential : InCredential) (options : IssueOptions) (freshUuid : String)
    (t ty : String) (ht : t ≠ label) :
    ((issue_credential C st label credential options freshUuid).2).nextIndex t ty =
      st.nextIndex t ty := by
  unfold issue_credential
  cases hcs : options.credentialStatus with
  | none => simp
  | some cs =>
    by_cases h1 : cs.csType = "StatusList2021Entry" <;>
      by_cases h2 : cs.csType = "RevocationList2020Status" <;>
      by_cases h3 : C.didWebBase ++ ":organization:" ++ label = credential.issuer.did <;>
      simp [h1, h2, h3, create_entry, ht]

theorem issue_result_congr (C : Collaborators) (st1 st2 : EngineState)
    (label : String) (credential : InCredential) (options : IssueOptions)
    (freshUuid : String)
    (hidx : st1.nextIndex label = st2.nextIndex label) :
    (issue_credential C st1 label credential options freshUuid).1 =
      (issue_credential C st2 label credential options freshUuid).1 := by
  unfold issue_credential
  cases hcs : options.credentialStatus with
  | none => simp
  | some cs =>
    by_cases h1 : cs.csType = "StatusList2021Entry" <;>
      by_cases h2 : cs.csType = "RevocationList2020Status" <;>
      by_cases h3 : C.didWebBase ++ ":organization:" ++ label = credential.issuer.did <;>
      simp [h1, h2, h3, create_entry, congrFun hidx]

theorem applyOp_store_frame (C : Collaborators) (label : String) (o : Op)
    (st : EngineState) (k : String) (hk : k ∉ o.storeWrites label) :
    ((applyOp C label o st).2).store k = st.store k := by
  cases o with
  | getCred cid => rfl
  | getStatusList ty => rfl
  | issue cred opts uuid =>
    simp only [Op.storeWrites, List.mem_singleton] at hk
    exact issue_store_frame C st label cred opts uuid k hk
  | update cid statuses =>
    simp only [Op.storeWrites, List.mem_singleton] at hk
    exact update_store_frame C st label cid statuses k hk

theorem applyOp_nextIndex_frame (C : Collaborators) (label : String) (o : Op)
    (st : EngineState) (t ty : String) (ht : t ≠ label) :
    ((applyOp C label o st).2).nextIndex t ty = st.nextIndex t ty := by
  cases o with
  | getCred cid => rfl
  | getStatusList ty2 => rfl
  | issue cred opts uuid => exact issue_nextIndex_frame C st label cred opts uuid t ty ht
  | update cid statuses => exact update_nextIndex_frame C st label cid statuses t ty

theorem applyOp_result_congr (C : Collaborators) (label : String) (o : Op)
    (st1 st2 : EngineState)
    (hreads : ∀ k ∈ o.storeReads label, st1.store k = st2.store k)
    (hidx : st1.nextIndex label = st2.nextIndex label) :
    (applyOp C label o st1).1 = (applyOp C label o st2).1 := by
  cases o with
  | getCred cid =>
    have h := hreads (credential_data_key label cid) (by simp [Op.storeReads])
    simp only [applyOp, get_credential, h]
  | getStatusList ty =>
    have h := hreads (status_list_retrieval_key label ty) (by simp [Op.storeReads])
    simp only [applyOp, get_status_list_credential, h]
  | issue cred opts uuid =>
    simp only [applyOp]
    rw [issue_result_congr C st1 st2 label cred opts uuid hidx]
  | update cid statuses =>
    have h := hreads (update_fetch_key label cid) (by simp [Op.storeReads])
    simp only [applyOp, update_credential_status, h]
    cases st2.store (update_fetch_key label cid) with
    | absent => rfl
    | corrupt m => rfl
    | found v =>
      cases v with
      | doc s => rfl
      | cred vc =>
        simp only []
        rw [update_loop_err_congr C label vc statuses st1.store st2.store]
        cases (update_status_loop C label vc statuses st2.store).2 <;> rfl

/-! ## Tenant scoping of keys -/

/-- A key belonging to tenant `t`: its characters up to the first colon spell
`t` itself or `t` lower-cased (the latter because `issue_credential` and
`update_credential_status` lower-case the whole key). -/
def TenantKey (t k : String) : Prop :=
  ∃ r, k.data = t.data ++ ':' :: r ∨ k.data = (pyLower t).data ++ ':' :: r

theorem tenantKey_storeKeys (t : String) (o : Op) (k : String)
    (hk : k ∈ o.storeKeys t) : TenantKey t k := by
  cases o with
  | getCred cid =>
    simp only [Op.storeKeys, Op.storeReads, Op.storeWrites, List.append_nil,
      List.mem_singleton] at hk
    subst hk
    refine ⟨"credentials:".data ++ cid.data, Or.inl ?_⟩
    simp [credential_data_key, String.data_append]
  | issue cred opts uuid =>
    simp only [Op.storeKeys, Op.storeReads, Op.storeWrites, List.nil_append,
      List.mem_singleton] at hk
    subst hk
    refine ⟨("credentials:".data ++ (cred.id.getD ("urn:uuid:" ++ uuid)).data).map lowerChar,
      Or.inr ?_⟩
    simp [issue_data_key, pyLower, String.data_append,
      show lowerChar ':' = ':' from rfl]
  | update cid statuses =>
    simp only [Op.storeKeys, Op.storeReads, Op.storeWrites, List.mem_append,
      List.mem_singleton] at hk
    cases hk with
    | inl hk =>
      subst hk
      refine ⟨("credentials:".data ++ cid.data).map lowerChar, Or.inr ?_⟩
      simp [update_fetch_key, pyLower, String.data_append,
        show lowerChar ':' = ':' from rfl]
    | inr hk =>
      subst hk
      exact ⟨"status_list".data, Or.inl (by simp [update_status_list_key, String.data_append])⟩
  | getStatusList ty =>
    simp only [Op.storeKeys, Op.storeReads, Op.storeWrites, List.append_nil,
      List.mem_singleton] at hk
    subst hk
    refine ⟨"status_lists:".data ++ ty.data, Or.inl ?_⟩
    simp [status_list_retrieval_key, String.data_append]

theorem tenantKey_disjoint (t1 t2 k1 k2 : String)
    (h1 : colonFreeData t1.data) (h2 : colonFreeData t2.data)
    (hne : pyLower t1 ≠ pyLower t2)
    (hk1 : TenantKey t1 k1) (hk2 : TenantKey t2 k2) : k1 ≠ k2 := by
  intro heq
  obtain ⟨r1, hr1⟩ := hk1
  obtain ⟨r2, hr2⟩ := hk2
  have hlow1 : colonFreeData ((pyLower t1).data) := colonFreeData_map_lowerChar _ h1
  have hlow2 : colonFreeData ((pyLower t2).data) := colonFreeData_map_lowerChar _ h2
  have hdata : k1.data = k2.data := by rw [heq]
  have hmap : t1.data.map lowerChar = t2.data.map lowerChar := by
    have hseg : headSegData k1.data = headSegData k2.data := by rw [hdata]
    have e1 : (headSegData k1.data).map lowerChar = t1.data.map lowerChar := by
      cases hr1 with
      | inl h => rw [h, headSegData_append _ _ h1]
      | inr h =>
        rw [h, headSegData_append _ _ hlow1]
        show ((pyLower t1).data).map lowerChar = _
        simp [pyLower, Function.comp, lowerChar_lowerChar]
    have e2 : (headSegData k2.data).map lowerChar = t2.data.map lowerChar := by
      cases hr2 with
      | inl h => rw [h, headSegData_append _ _ h2]
      | inr h =>
        rw [h, headSegData_append _ _ hlow2]
        show ((pyLower t2).data).map lowerChar = _
        simp [pyLower, Function.comp, lowerChar_lowerChar]
    rw [← e1, ← e2, hseg]
  exact hne (String.ext (by simpa [pyLower] using hmap))

/-! ## Concrete fixtures for counterexamples and witnesses -/

/-- Concrete collaborators: deterministic signer; the status-change call
raises exactly on status bit "revoke-bad". -/
def sampleCollab : Collaborators :=
  { didWebBase := "did:web:example.com"
    signCred := fun _ _ => "signed-credential"
    signDoc := fun d => "signed:" ++ d
    changeStatus := fun _ sb _ =>
      if sb = "revoke-bad" then .error "boom" else .ok ("slc:" ++ sb) }

/-- A status entry at index 1 of alice's StatusList2021 list. -/
def sampleEntry : StatusEntryDoc :=
  { entryType := "StatusList2021Entry"
    statusListCredential := "alice:status_lists:StatusList2021"
    statusListIndex := 1
    statusPurpose := "revocation" }

/-- A stored credential of tenant alice carrying `sampleEntry`. -/
def sampleCred : OutCredential :=
  { atContext := ["https://www.w3.org/2018/credentials/v1"]
    id := "c1"
    issuer := .str "did:web:example.com:organization:alice"
    credentialStatus := some sampleEntry }

/-- State with nothing stored. -/
def emptyState : EngineState :=
  { store := fun _ => .absent, nextIndex := fun _ _ => 0 }

/-- State holding `sampleCred` under the key `update_credential_status`
fetches for tenant alice, credential c1. -/
def sampleUpdateState : EngineState :=
  { store := fun k => if k = update_fetch_key "alice" "c1"
                      then .found (.cred sampleCred) else .absent
    nextIndex := fun _ _ => 0 }

/-- State in which every fetch raises a non-not-found failure. -/
def corruptState : EngineState :=
  { store := fun _ => .corrupt "askar decode failure", nextIndex := fun _ _ => 0 }

/-! ## C1 -/

/-- C1 is false on the code: a successful status update on alice's credential
c1 (whose status entry references the specific list
`alice:status_lists:StatusList2021`) persists the signed status list under
the shared key `alice:status_list` — a key that is not of the
generation-carrying form the claim requires for any type or generation
rendering. -/
theorem c1_counterexample :
    (update_credential_status sampleCollab sampleUpdateState "alice" "c1" ["1"]).1 =
      .ok ∧
    ((update_credential_status sampleCollab sampleUpdateState "alice" "c1" ["1"]).2).store
      (update_status_list_key "alice") = .found (.doc "signed:slc:1") ∧
    ¬ ∃ ty gen, update_status_list_key "alice" = specStatusListKeyScheme "alice" ty gen :=
  ⟨by decide, by decide, no_gen_in_update_key "alice"⟩

/-- C1 amended: for every `update_credential_status` call, the only store key
the operation can mutate is the shared `\x7blabel\x7d:status_list` key, and
that key carries no generation component — the specific generation recorded
in the credential's status entry is never the persist target. -/
theorem c1_amended (C : Collaborators) (st : EngineState)
    (label credential_id : String) (statuses : List String) (k : String)
    (hk : k ≠ update_status_list_key label) :
    ((update_credential_status C st label credential_id statuses).2).store k =
      st.store k ∧
    ¬ ∃ ty gen, update_status_list_key label = specStatusListKeyScheme label ty gen :=
  ⟨update_store_frame C st label credential_id statuses k hk,
   no_gen_in_update_key label⟩

/-- Witness for `c1_amended` at tenant alice and an unrelated key. -/
theorem c1_amended_witness :
    ("alice:credentials:c1" ≠ update_status_list_key "alice") ∧
    (((update_credential_status sampleCollab sampleUpdateState "alice" "c1"
        ["1"]).2).store "alice:credentials:c1" =
      sampleUpdateState.store "alice:credentials:c1" ∧
     ¬ ∃ ty gen, update_status_list_key "alice" = specStatusListKeyScheme "alice" ty gen) :=
  ⟨by decide,
   c1_amended sampleCollab sampleUpdateState "alice" "c1" ["1"]
     "alice:credentials:c1" (by decide)⟩

/-! ## C2 -/

/-- C2 is false on the code: the key written on a status update is
`alice:status_list` and the key read by the retrieval endpoint is
`alice:status_lists:StatusList2021`; neither is of the claimed form
`\x7btenant\x7d:status_lists:\x7btype\x7d:\x7bgeneration\x7d` for any
generation rendering (the write key even lacks the type). -/
theorem c2_counterexample :
    update_status_list_key "alice" = "alice:status_list" ∧
    status_list_retrieval_key "alice" "StatusList2021" =
      "alice:status_lists:StatusList2021" ∧
    (¬ ∃ ty gen, update_status_list_key "alice" =
      specStatusListKeyScheme "alice" ty gen) ∧
    (¬ ∃ gen, status_list_retrieval_key "alice" "StatusList2021" =
      specStatusListKeyScheme "alice" "StatusList2021" gen) :=
  ⟨rfl, rfl, no_gen_in_update_key "alice", no_gen_in_retrieval_key "alice" "StatusList2021"⟩

/-- C2 amended: the status-update endpoint writes status-list records only
under `\x7blabel\x7d:status_list`; the retrieval endpoint reads them under
`\x7blabel\x7d:status_lists:\x7btype\x7d`; neither key carries a generation
component, and the two schemes never even coincide. -/
theorem c2_amended (C : Collaborators) (st : EngineState)
    (label credential_id : String) (statuses : List String) (ty k : String)
    (hk : ((update_credential_status C st label credential_id statuses).2).store k ≠
      st.store k) :
    k = update_status_list_key label ∧
    (∀ v, get_status_list_credential st label ty = .ok v ↔
      st.store (status_list_retrieval_key label ty) = .found v) ∧
    (¬ ∃ ty2 gen, update_status_list_key label = specStatusListKeyScheme label ty2 gen) ∧
    (¬ ∃ gen, status_list_retrieval_key label ty = specStatusListKeyScheme label ty gen) ∧
    update_status_list_key label ≠ status_list_retrieval_key label ty := by
  refine ⟨?_, ?_, no_gen_in_update_key label, no_gen_in_retrieval_key label ty, ?_⟩
  · by_contra hne
    exact hk (update_store_frame C st label credential_id statuses k hne)
  · intro v
    cases h : st.store (status_list_retrieval_key label ty) <;>
      simp [get_status_list_credential, h]
  · intro h
    have hl := congrArg String.length h
    simp only [update_status_list_key, status_list_retrieval_key, strLen_append] at hl
    have h1 : (":status_list" : String).length = 12 := rfl
    have h2 : (":status_lists:" : String).length = 14 := rfl
    rw [h1, h2] at hl
    omega

/-- Witness for `c2_amended`: the update run on the sample state does change
the store at `alice:status_list`. -/
theorem c2_amended_witness :
    (((update_credential_status sampleCollab sampleUpdateState "alice" "c1"
        ["1"]).2).store "alice:status_list" ≠
      sampleUpdateState.store "alice:status_list") ∧
    ("alice:status_list" = update_status_list_key "alice" ∧
     (∀ v, get_status_list_credential sampleUpdateState "alice" "StatusList2021" = .ok v ↔
       sampleUpdateState.store (status_list_retrieval_key "alice" "StatusList2021") =
         .found v) ∧
     (¬ ∃ ty2 gen, update_status_list_key "alice" =
       specStatusListKeyScheme "alice" ty2 gen) ∧
     (¬ ∃ gen, status_list_retrieval_key "alice" "StatusList2021" =
       specStatusListKeyScheme "alice" "StatusList2021" gen) ∧
     update_status_list_key "alice" ≠
       status_list_retrieval_key "alice" "StatusList2021") :=
  ⟨by decide,
   c2_amended sampleCollab sampleUpdateState "alice" "c1" ["1"] "StatusList2021"
     "alice:status_list" (by decide)⟩

/-! ## C6 -/

/-- C6 is false on the code: when the fetch fails with a failure other than
not-found (here a decode failure), both GET endpoints still answer with the
404 not-found payload — the bare `except:` swallows the distinct failure. -/
theorem c6_counterexample :
    get_credential corruptState "alice" "c1" = .err404 "credential c1 not found" ∧
    corruptState.store (credential_data_key "alice" "c1") ≠ .absent ∧
    get_status_list_credential corruptState "alice" "StatusList2021" =
      .err404 "Status list not found" ∧
    corruptState.store (status_list_retrieval_key "alice" "StatusList2021") ≠ .absent := by
  decide

/-- C6 amended: `get_credential` and `get_status_list_credential` answer 404
exactly when the fetch does not produce a value — whether the record is
absent or the fetch fails for any other reason; every failure mode is folded
into the same 404 response, none is surfaced as a distinct typed error. -/
theorem c6_amended (st : EngineState) (label credential_id ty : String) :
    (get_credential st label credential_id =
        .err404 ("credential " ++ credential_id ++ " not found") ↔
      ∀ v, st.store (credential_data_key label credential_id) ≠ .found v) ∧
    (∀ v, get_credential st label credential_id = .ok v ↔
      st.store (credential_data_key label credential_id) = .found v) ∧
    (get_status_list_credential st label ty = .err404 "Status list not found" ↔
      ∀ v, st.store (status_list_retrieval_key label ty) ≠ .found v) ∧
    (∀ v, get_status_list_credential st label ty = .ok v ↔
      st.store (status_list_retrieval_key label ty) = .found v) := by
  refine ⟨?_, ?_, ?_, ?_⟩
  · cases h : st.store (credential_data_key label credential_id) <;>
      simp [get_credential, h]
  · intro v
    cases h : st.store (credential_data_key label credential_id) <;>
      simp [get_credential, h]
  · cases h : st.store (status_list_retrieval_key label ty) <;>
      simp [get_status_list_credential, h]
  · intro v
    cases h : st.store (status_list_retrieval_key label ty) <;>
      simp [get_status_list_credential, h]

/-! ## C10 -/

/-- The one endpoint declared without the JWT bearer dependency. -/
def statusListEndpointDecl : EndpointDecl :=
  ⟨"get_status_list_credential", "/organization/{label}/credentials/status/{list_type}",
   false, false, true⟩

/-- C10: among the router's declared endpoints, lacking both the JWT bearer
dependency and the per-tenant authorization check characterizes exactly
`get_status_list_credential`; every other endpoint carries both, and the
status-list endpoint only normalizes the label. -/
theorem c10_unauthenticated_endpoint :
    ∀ e ∈ routerEndpoints,
      ((e.hasJWTBearer = false ∧ e.checksAuthorized = false) ↔
        e.name = "get_status_list_credential") ∧
      (e.name ≠ "get_status_list_credential" →
        e.hasJWTBearer = true ∧ e.checksAuthorized = true) ∧
      (e.name = "get_status_list_credential" → e.normalizesLabelOnly = true) := by
  decide

/-- Witness for `c10_unauthenticated_endpoint` at the status-list endpoint. -/
theorem c10_unauthenticated_endpoint_witness :
    statusListEndpointDecl ∈ routerEndpoints ∧
    (((statusListEndpointDecl.hasJWTBearer = false ∧
        statusListEndpointDecl.checksAuthorized = false) ↔
      statusListEndpointDecl.name = "get_status_list_credential") ∧
     (statusListEndpointDecl.name ≠ "get_status_list_credential" →
       statusListEndpointDecl.hasJWTBearer = true ∧
       statusListEndpointDecl.checksAuthorized = true) ∧
     (statusListEndpointDecl.name = "get_status_list_credential" →
       statusListEndpointDecl.normalizesLabelOnly = true)) :=
  ⟨by decide, c10_unauthenticated_endpoint statusListEndpointDecl (by decide)⟩

/-! ## C3 -/

/-- An issue-request credential whose issuer matches tenant alice. -/
def sampleIssueCred : InCredential :=
  { context := ["https://www.w3.org/2018/credentials/v1"]
    id := some "c1"
    issuer := .str "did:web:example.com:organization:alice" }

/-- Issue options carrying no credentialStatus member. -/
def sampleOptsNoStatus : IssueOptions := { credentialStatus := none, created := none }

/-- Issue options requesting a StatusList2021Entry. -/
def sampleOptsSL2021 : IssueOptions :=
  { credentialStatus := some ⟨"StatusList2021Entry"⟩, created := none }

instance {ε α : Type} [DecidableEq ε] [DecidableEq α] : DecidableEq (Except ε α) :=
  fun x y =>
  match x, y with
  | .ok a, .ok b =>
    if h : a = b then .isTrue (by rw [h])
    else .isFalse (by intro hh; cases hh; exact h rfl)
  | .error a, .error b =>
    if h : a = b then .isTrue (by rw [h])
    else .isFalse (by intro hh; cases hh; exact h rfl)
  | .ok _, .error _ => .isFalse (by intro hh; cases hh)
  | .error _, .ok _ => .isFalse (by intro hh; cases hh)

/-- C3's failing input evaluated on the code: an otherwise valid issue request
whose options carry no credentialStatus does not succeed-without-status-claim;
it dies in `options.pop("credentialStatus")` (line 71, KeyError), and nothing
is stored. -/
theorem c3_code_evaluation :
    (issue_credential sampleCollab emptyState "alice" sampleIssueCred
      sampleOptsNoStatus "u-1").1 = .error .keyError ∧
    ((issue_credential sampleCollab emptyState "alice" sampleIssueCred
      sampleOptsNoStatus "u-1").2).store (issue_data_key "alice" "c1") = .absent := by
  decide

/-! ## C8 -/

/-- C8: when the options request a credentialStatus entry of a recognized
type and the issuer check fails, the request is rejected with the 400
Invalid-issuer error, yet a status-list index has already been allocated and
consumed (the per-tenant counter advanced), while nothing was stored and no
credential was returned — the status block (lines 60-70) runs before the
issuer check (lines 73-82). -/
theorem c8_allocation_before_issuer_check (C : Collaborators) (st : EngineState)
    (label : String) (credential : InCredential) (options : IssueOptions)
    (freshUuid : String) (cs : CredStatusOption)
    (hcs : options.credentialStatus = some cs)
    (hty : cs.csType = "StatusList2021Entry" ∨ cs.csType = "RevocationList2020Status")
    (hiss : C.didWebBase ++ ":organization:" ++ label ≠ credential.issuer.did) :
    (issue_credential C st label credential options freshUuid).1 =
      .error .invalidIssuer ∧
    (∃ ty, ((issue_credential C st label credential options freshUuid).2).nextIndex
      label ty = st.nextIndex label ty + 1) ∧
    (∀ k, ((issue_credential C st label credential options freshUuid).2).store k =
      st.store k) := by
  unfold issue_credential
  rcases hty with h1 | h1
  · refine ⟨by simp [hcs, h1, hiss], ⟨"StatusList2021", ?_⟩, fun k => ?_⟩
    · simp [hcs, h1, hiss, create_entry]
    · simp [hcs, h1, hiss, create_entry]
  · by_cases h0 : cs.csType = "StatusList2021Entry"
    · refine ⟨by simp [hcs, h0, hiss], ⟨"StatusList2021", ?_⟩, fun k => ?_⟩
      · simp [hcs, h0, hiss, create_entry]
      · simp [hcs, h0, hiss, create_entry]
    · refine ⟨by simp [hcs, h0, h1, hiss], ⟨"RevocationList2020", ?_⟩, fun k => ?_⟩
      · simp [hcs, h0, h1, hiss, create_entry]
      · simp [hcs, h0, h1, hiss, create_entry]

/-- An issue-request credential whose issuer belongs to a different tenant. -/
def sampleIssueCredWrongIssuer : InCredential :=
  { context := ["https://www.w3.org/2018/credentials/v1"]
    id := some "c1"
    issuer := .str "did:web:example.com:organization:bob" }

/-- Witness for `c8_allocation_before_issuer_check` on a concrete rejected
request of tenant alice. -/
theorem c8_allocation_before_issuer_check_witness :
    (sampleOptsSL2021.credentialStatus = some ⟨"StatusList2021Entry"⟩ ∧
     sampleCollab.didWebBase ++ ":organization:" ++ "alice" ≠
       sampleIssueCredWrongIssuer.issuer.did) ∧
    ((issue_credential sampleCollab emptyState "alice" sampleIssueCredWrongIssuer
        sampleOptsSL2021 "u-1").1 = .error .invalidIssuer ∧
     (∃ ty, ((issue_credential sampleCollab emptyState "alice"
        sampleIssueCredWrongIssuer sampleOptsSL2021 "u-1").2).nextIndex "alice" ty =
        emptyState.nextIndex "alice" ty + 1) ∧
     (∀ k, ((issue_credential sampleCollab emptyState "alice"
        sampleIssueCredWrongIssuer sampleOptsSL2021 "u-1").2).store k =
        emptyState.store k)) :=
  ⟨⟨by decide, by decide⟩,
   c8_allocation_before_issuer_check sampleCollab emptyState "alice"
     sampleIssueCredWrongIssuer sampleOptsSL2021 "u-1" ⟨"StatusList2021Entry"⟩
     (by decide) (Or.inl rfl) (by decide)⟩

/-! ## C9 -/

/-- C9: `issue_credential` stores under the lower-cased key (line 99) while
`get_credential` fetches under the raw key (line 30), so on a store that does
not already hold the raw key, the issue-then-get round trip succeeds exactly
when the concatenated key is unchanged by lower-casing. -/
theorem issue_ok_store (C : Collaborators) (st : EngineState) (label : String)
    (credential : InCredential) (options : IssueOptions) (freshUuid : String)
    (cs : CredStatusOption) (hcs : options.credentialStatus = some cs)
    (hiss : C.didWebBase ++ ":organization:" ++ label = credential.issuer.did) :
    ∃ oc : OutCredential,
      ((issue_credential C st label credential options freshUuid).2).store =
        st.store.put
          (issue_data_key label (credential.id.getD ("urn:uuid:" ++ freshUuid)))
          (.cred oc) := by
  unfold issue_credential
  simp only [hcs, hiss, eq_self_iff_true, if_true, ite_true]
  split
  · exact ⟨_, rfl⟩
  · split
    · exact ⟨_, rfl⟩
    · exact ⟨_, rfl⟩

theorem c9_roundtrip_iff_lowercase_fixed (C : Collaborators) (st : EngineState)
    (label : String) (credential : InCredential) (options : IssueOptions)
    (freshUuid : String) (cs : CredStatusOption) (credId : String)
    (hid : credId = credential.id.getD ("urn:uuid:" ++ freshUuid))
    (hcs : options.credentialStatus = some cs)
    (hiss : C.didWebBase ++ ":organization:" ++ label = credential.issuer.did)
    (hfresh : ∀ v, st.store (credential_data_key label credId) ≠ .found v) :
    (∃ v, get_credential
        ((issue_credential C st label credential options freshUuid).2) label credId =
        .ok v) ↔
      pyLower (credential_data_key label credId) = credential_data_key label credId := by
  subst hid
  have hkey : issue_data_key label (credential.id.getD ("urn:uuid:" ++ freshUuid)) =
      pyLower (credential_data_key label (credential.id.getD ("urn:uuid:" ++ freshUuid))) := rfl
  obtain ⟨oc, hstore⟩ := issue_ok_store C st label credential options freshUuid cs hcs hiss
  simp only [get_credential, hstore]
  constructor
  · rintro ⟨v, hv⟩
    by_contra hne
    rw [Store.put_other] at hv
    · cases hfv : st.store (credential_data_key label
        (credential.id.getD ("urn:uuid:" ++ freshUuid))) with
      | found w => exact hfresh w hfv
      | absent => rw [hfv] at hv; cases hv
      | corrupt m => rw [hfv] at hv; cases hv
    · rw [hkey]
      intro hcontra
      exact hne (by rw [← hcontra])
  · intro heq
    have hKK : issue_data_key label (credential.id.getD ("urn:uuid:" ++ freshUuid)) =
        credential_data_key label (credential.id.getD ("urn:uuid:" ++ freshUuid)) :=
      hkey.trans heq
    rw [hKK]
    simp only [Store.put_same]
    exact ⟨_, rfl⟩

/-- Witness for `c9_roundtrip_iff_lowercase_fixed` on an all-lowercase pair,
where the round trip does succeed. -/
theorem c9_roundtrip_iff_lowercase_fixed_witness :
    (("c1" : String) = sampleIssueCred.id.getD ("urn:uuid:" ++ "u-1") ∧
     sampleOptsSL2021.credentialStatus = some ⟨"StatusList2021Entry"⟩ ∧
     sampleCollab.didWebBase ++ ":organization:" ++ "alice" =
       sampleIssueCred.issuer.did ∧
     ∀ v, emptyState.store (credential_data_key "alice" "c1") ≠ .found v) ∧
    ((∃ v, get_credential
        ((issue_credential sampleCollab emptyState "alice" sampleIssueCred
          sampleOptsSL2021 "u-1").2) "alice" "c1" = .ok v) ↔
      pyLower (credential_data_key "alice" "c1") = credential_data_key "alice" "c1") :=
  ⟨⟨by decide, by decide, by decide, fun v h => FetchOutcome.noConfusion h⟩,
   c9_roundtrip_iff_lowercase_fixed sampleCollab emptyState "alice" sampleIssueCred
     sampleOptsSL2021 "u-1" ⟨"StatusList2021Entry"⟩ "c1" (by decide) (by decide)
     (by decide) (fun v h => FetchOutcome.noConfusion h)⟩

/-! ## C4 -/

/-- C4 is false on the code: in a two-change batch where the second change
raises, the run fails, yet the bit flip of the first change has already been
signed and persisted — a strict prefix of the batch stands alone in the
store. -/
theorem c4_counterexample :
    (update_credential_status sampleCollab sampleUpdateState "alice" "c1"
      ["revoke-ok", "revoke-bad"]).1 = .changeFailed "boom" ∧
    ((update_credential_status sampleCollab sampleUpdateState "alice" "c1"
      ["revoke-ok", "revoke-bad"]).2).store (update_status_list_key "alice") =
      .found (.doc "signed:slc:revoke-ok") ∧
    sampleUpdateState.store (update_status_list_key "alice") = .absent := by
  decide

theorem update_loop_prefix_fail (C : Collaborators) (label : String)
    (vc : OutCredential) (pre : List String) :
    ∀ (post : List String) (sb e : String) (store : Store),
    (∀ s ∈ pre, ∃ d, C.changeStatus vc s label = .ok d) →
    C.changeStatus vc sb label = .error e →
    update_status_loop C label vc (pre ++ sb :: post) store =
      ((update_status_loop C label vc pre store).1, some e) := by
  induction pre with
  | nil =>
    intro post sb e store _ hsb
    simp only [List.nil_append, update_status_loop, hsb]
  | cons s rest ih =>
    intro post sb e store hpre hsb
    obtain ⟨d, hd⟩ := hpre s (by simp)
    simp only [List.cons_append, update_status_loop, hd]
    exact ih post sb e _ (fun x hx => hpre x (by simp [hx])) hsb

/-- C4 amended: the batch is applied strictly sequentially, each change being
signed and persisted on its own before the next one is computed; when the
change for `sb` raises after the changes of `pre` succeeded, the request
fails but the store holds exactly the writes of the prefix `pre`, and the
changes after `sb` are never applied. -/
theorem c4_amended (C : Collaborators) (st : EngineState)
    (label credential_id : String) (vc : OutCredential)
    (pre post : List String) (sb e : String)
    (hfetch : st.store (update_fetch_key label credential_id) = .found (.cred vc))
    (hpre : ∀ s ∈ pre, ∃ d, C.changeStatus vc s label = .ok d)
    (hsb : C.changeStatus vc sb label = .error e) :
    (update_credential_status C st label credential_id (pre ++ sb :: post)).1 =
      .changeFailed e ∧
    ((update_credential_status C st label credential_id (pre ++ sb :: post)).2).store =
      (update_status_loop C label vc pre st.store).1 := by
  have hloop := update_loop_prefix_fail C label vc pre post sb e st.store hpre hsb
  unfold update_credential_status
  rw [hfetch]
  simp [hloop]

/-- Witness for `c4_amended` on the concrete two-change batch. -/
theorem c4_amended_witness :
    (sampleUpdateState.store (update_fetch_key "alice" "c1") =
       .found (.cred sampleCred) ∧
     (∀ s ∈ ["revoke-ok"], ∃ d,
        sampleCollab.changeStatus sampleCred s "alice" = .ok d) ∧
     sampleCollab.changeStatus sampleCred "revoke-bad" "alice" = .error "boom") ∧
    ((update_credential_status sampleCollab sampleUpdateState "alice" "c1"
        (["revoke-ok"] ++ "revoke-bad" :: [])).1 = .changeFailed "boom" ∧
     ((update_credential_status sampleCollab sampleUpdateState "alice" "c1"
        (["revoke-ok"] ++ "revoke-bad" :: [])).2).store =
      (update_status_loop sampleCollab "alice" sampleCred ["revoke-ok"]
        sampleUpdateState.store).1) :=
  ⟨⟨by decide,
    by
      intro s hs
      simp only [List.mem_singleton] at hs
      subst hs
      exact ⟨"slc:revoke-ok", by decide⟩,
    by decide⟩,
   c4_amended sampleCollab sampleUpdateState "alice" "c1" sampleCred
     ["revoke-ok"] [] "revoke-bad" "boom" (by decide)
     (by
       intro s hs
       simp only [List.mem_singleton] at hs
       subst hs
       exact ⟨"slc:revoke-ok", by decide⟩)
     (by decide)⟩

/-! ## C5 -/

/-- A verifiable credential carrying `sampleEntry` as its status claim. -/
def sampleVerifyVC : VerifyVC :=
  { context := ["https://www.w3.org/2018/credentials/v1"]
    credentialStatus := some sampleEntry }

/-- C5's failing input evaluated on the code: with the referenced bit true at
index 1 (the spec's own scenario), the handler's verification record does
accumulate the "revoked" error — but the HTTP response body returned at lines
150/154 is `verified`, the raw agent result, which carries no "revoked" and is
byte-identical whether the bit is true or false.  The claim that "the response
records the error revoked exactly when that bit is true" fails on the
response the caller actually receives. -/
theorem c5_code_evaluation :
    (verify_credential (fun e _ => spec_get_credential_status [false, true, false] e)
      ⟨some true⟩ sampleVerifyVC).record.errors = ["revoked"] ∧
    (verify_credential (fun e _ => spec_get_credential_status [false, true, false] e)
      ⟨some true⟩ sampleVerifyVC).record.verified = false ∧
    (verify_credential (fun e _ => spec_get_credential_status [false, true, false] e)
      ⟨some true⟩ sampleVerifyVC).response = ⟨some true⟩ ∧
    (verify_credential (fun e _ => spec_get_credential_status [false, false, false] e)
      ⟨some true⟩ sampleVerifyVC).response =
      (verify_credential (fun e _ => spec_get_credential_status [false, true, false] e)
        ⟨some true⟩ sampleVerifyVC).response := by
  decide

/-! ## C7 -/

/-- An issue-request credential whose issuer matches the mixed-case tenant
label "Alice". -/
def sampleIssueCredUpper : InCredential :=
  { context := ["https://www.w3.org/2018/credentials/v1"]
    id := some "c1"
    issuer := .str "did:web:example.com:organization:Alice" }

/-- C7 is false on the code as stated: the key `issue_credential` writes for
label "Alice" does not begin with "Alice" (it is lower-cased), it collides
with the key `get_credential` reads for the distinct label "alice", and a
request of tenant "Alice" concretely changes the answer tenant "alice"
receives — key sets of distinct labels are not disjoint and noninterference
fails. -/
theorem c7_counterexample :
    issue_data_key "Alice" "x" = credential_data_key "alice" "x" ∧
    ("Alice" : String) ≠ "alice" ∧
    (issue_data_key "Alice" "x").data.take ("Alice" : String).length ≠
      ("Alice" : String).data ∧
    get_credential
      ((issue_credential sampleCollab emptyState "Alice" sampleIssueCredUpper
        sampleOptsSL2021 "u-1").2) "alice" "c1" ≠
      get_credential emptyState "alice" "c1" := by
  decide

/-- C7 amended: every store key an endpoint builds for label `t` begins with
`t` or with `t` lower-cased; consequently, for two colon-free labels whose
lower-casings differ, the key sets are disjoint and two-run noninterference
holds: running any request of tenant `t2` first does not change the response
of any request of tenant `t1`. -/
theorem c7_amended (C : Collaborators) (st : EngineState) (t1 t2 : String)
    (o1 o2 : Op)
    (h1 : colonFreeData t1.data) (h2 : colonFreeData t2.data)
    (hne : pyLower t1 ≠ pyLower t2) :
    (applyOp C t1 o1 ((applyOp C t2 o2 st).2)).1 = (applyOp C t1 o1 st).1 ∧
    ∀ k ∈ o1.storeKeys t1, TenantKey t1 k := by
  constructor
  · apply applyOp_result_congr
    · intro k hk
      apply applyOp_store_frame
      intro hkw
      have tk1 : TenantKey t1 k :=
        tenantKey_storeKeys t1 o1 k (by simp [Op.storeKeys, hk])
      have tk2 : TenantKey t2 k :=
        tenantKey_storeKeys t2 o2 k (by simp [Op.storeKeys, hkw])
      exact tenantKey_disjoint t1 t2 k k h1 h2 hne tk1 tk2 rfl
    · funext ty
      apply applyOp_nextIndex_frame
      intro h12
      exact hne (by rw [h12])
  · exact tenantKey_storeKeys t1 o1

/-- Witness for `c7_amended`: a request of tenant bob running first leaves
alice's answer unchanged. -/
theorem c7_amended_witness :
    (colonFreeData ("alice" : String).data ∧ colonFreeData ("bob" : String).data ∧
     pyLower "alice" ≠ pyLower "bob") ∧
    ((applyOp sampleCollab "alice" (.getCred "c1")
        ((applyOp sampleCollab "bob" (.update "c1" ["1"]) sampleUpdateState).2)).1 =
      (applyOp sampleCollab "alice" (.getCred "c1") sampleUpdateState).1 ∧
     ∀ k ∈ (Op.getCred "c1").storeKeys "alice", TenantKey "alice" k) :=
  ⟨⟨by decide, by decide, by decide⟩,
   c7_amended sampleCollab sampleUpdateState "alice" "bob" (.getCred "c1")
     (.update "c1" ["1"]) (by decide) (by decide) (by decide)⟩
